import Mathlib

/-!
Verification development for the UHI (Urban Heat Island) analysis backend.

The source program computes per-point vegetation (NDVI) and temperature (LST)
indices from satellite band values, samples points, classifies them into heat
zones via K-means clustering, and serves the result over an HTTP API.

Shallow embedding conventions:
- Python floats are modelled by elements of a linear ordered field; purely
  algebraic pieces are polymorphic (instantiated at Rat for executable
  witnesses), pieces involving transcendental functions (log) live over Real.
- Python dicts that gain keys during classification are modelled by the
  structure PyPoint whose classification fields are Option values (none =
  key absent). The in-place mutating loop of classify_heat_zones is modelled
  as a state transformer on the list of point objects (the heap of dicts):
  the returned list is the final state of the very objects that were passed
  in, reflecting that the Python code writes through the references and
  returns the same list.
- The sklearn KMeans / numpy argsort calls are external library calls; where
  a theorem depends on their behaviour, their documented contracts (cluster
  centers are the per-cluster means; argsort yields a permutation putting
  values in the requested order) appear as hypotheses.
-/

section Model

variable {α : Type*} [LinearOrderedField α]

namespace NDVICalculator

/-- NDVI from src/backend/app.py, NDVICalculator.calculate:
return (nir - red) / (nir + red + 1e-10). -/
def calculate (nir red : α) : α :=
  (nir - red) / (nir + red + 1e-10)

end NDVICalculator

namespace LSTCalculator

/-- Landsat 8 thermal constant K1 from LSTCalculator.brightness_temperature. -/
def K1 : ℝ := 774.8853

/-- Landsat 8 thermal constant K2 from LSTCalculator.brightness_temperature. -/
def K2 : ℝ := 1321.0789

/-- Brightness temperature from src/backend/app.py:
bt = (K2 / np.log((K1 / thermal_band) + 1)) - 273.15. -/
noncomputable def brightness_temperature (thermal_band : ℝ) : ℝ :=
  K2 / Real.log (K1 / thermal_band + 1) - 273.15

/-- Fractional vegetation cover pv from LSTCalculator.emissivity_correction:
np.where(ndvi < 0.2, 0, np.where(ndvi > 0.5, 1, ((ndvi - 0.2) / (0.5 - 0.2)) ** 2)).
Polymorphic over the scalar field (the formula is purely algebraic). -/
def pv (ndvi : α) : α :=
  if ndvi < 0.2 then 0
  else if ndvi > 0.5 then 1
  else ((ndvi - 0.2) / (0.5 - 0.2)) ^ 2

/-- Emissivity from LSTCalculator.emissivity_correction:
es * (1 - pv) + ev * pv with es = 0.973, ev = 0.987. -/
def emissivity_correction (ndvi : α) : α :=
  0.973 * (1 - pv ndvi) + 0.987 * pv ndvi

/-- LST from LSTCalculator.calculate_lst:
lst = bt / (1 + (wavelength * bt / c1) * np.log(emissivity)),
wavelength = 10.9e-6, c1 = 1.438e-2. -/
noncomputable def calculate_lst (thermal_band ndvi : ℝ) : ℝ :=
  let bt := brightness_temperature thermal_band
  bt / (1 + (10.9e-6 * bt / 1.438e-2) * Real.log (emissivity_correction ndvi))

end LSTCalculator

/-- A point dict as it flows through the pipeline. The four base fields are
the keys written by UHIAnalyzer.sample_points; the Option fields are the keys
added later by UHIAnalyzer.classify_heat_zones (none = key not present). -/
structure PyPoint (α : Type*) where
  lon : α
  lat : α
  lst : α
  ndvi : α
  zone : Option ℕ := none
  cluster_id : Option ℕ := none
  uhi_intensity : Option α := none
  severity : Option String := none
  recommendation : Option String := none
  priority : Option ℕ := none
  color : Option String := none
  vegetation : Option String := none
deriving DecidableEq

/-- A sampled feature before index extraction: location plus the three band
values at that location (the upstream contract of sample_points). -/
structure Feature (α : Type*) where
  lon : α
  lat : α
  nir : α
  red : α
  thermal : α
deriving DecidableEq

/-- LST as actually computed in UHIAnalyzer.sample_points (line 163):
lst = satellite_data thermal band minus 273.15 (the thermal band is already
scaled to Kelvin upstream). Note this is NOT LSTCalculator.calculate_lst. -/
def sampledLST (thermal : α) : α :=
  thermal - 273.15

/-- NDVI as computed server-side in UHIAnalyzer.sample_points (lines 158-160):
nir.subtract(red).divide(nir.add(red)) - note: no epsilon here. -/
def sampledNDVI (nir red : α) : α :=
  (nir - red) / (nir + red)

/-- The per-feature extraction and physical-plausibility filter of
UHIAnalyzer.sample_points (lines 177-195): keep a point only when
-50 < lst < 70 and -1 <= ndvi <= 1; kept points carry only the four base
keys lon, lat, lst, ndvi. -/
def samplePointsLocal (feats : List (Feature α)) : List (PyPoint α) :=
  feats.filterMap (fun f =>
    let lst_val := sampledLST f.thermal
    let ndvi_val := sampledNDVI f.nir f.red
    if -50 < lst_val ∧ lst_val < 70 ∧ -1 ≤ ndvi_val ∧ ndvi_val ≤ 1 then
      some { lon := f.lon, lat := f.lat, lst := lst_val, ndvi := ndvi_val }
    else none)

/-- np.mean of the lst values of a batch, as evaluated in the loop body of
UHIAnalyzer.classify_heat_zones (line 238):
avg_lst = np.mean(pt lst for pt in data). -/
def meanLst (data : List (PyPoint α)) : α :=
  (data.map PyPoint.lst).sum / (data.length : α)

/-- The body of the per-point loop of UHIAnalyzer.classify_heat_zones
(lines 232-268), writing the classification keys into the dict d:
zone via label_mapping, cluster_id = raw label, uhi_intensity = lst - avg,
then the fixed 3-tier severity policy and the NDVI vegetation category. -/
def classifyPoint (d : PyPoint α) (label : ℕ) (label_mapping : ℕ → ℕ) (avg : α) :
    PyPoint α :=
  let z := label_mapping label
  { d with
    zone := some z
    cluster_id := some label
    uhi_intensity := some (d.lst - avg)
    severity := some (if z = 0 then "Critical" else if z = 1 then "Moderate" else "Low")
    recommendation := some (if z = 0 then
        "Urgent: Implement green infrastructure - tree plantation, green roofs, vertical gardens, cool pavements"
      else if z = 1 then
        "Medium Priority: Develop urban parks, water bodies, increase albedo with reflective surfaces"
      else
        "Maintenance: Preserve existing vegetation, monitor for changes")
    priority := some (if z = 0 then 1 else if z = 1 then 2 else 3)
    color := some (if z = 0 then "#ef4444" else if z = 1 then "#f97316" else "#22c55e")
    vegetation := some (if d.ndvi < 0 then "Water/Built-up"
      else if d.ndvi < 0.2 then "Barren/Sparse"
      else if d.ndvi < 0.5 then "Moderate Vegetation"
      else "Dense Vegetation") }

/-- One-pass state transformer modelling
`for i, d in enumerate(data): ...` with in-place mutation: the state of the
list of dict objects is done ++ rest (done = already mutated prefix, rest =
not yet visited suffix), i is the loop index, and crucially the batch mean
avg_lst is recomputed at every iteration from the CURRENT state, exactly as
np.mean([pt['lst'] for pt in data]) sits inside the loop in the source. -/
def goLoop (label_mapping : ℕ → ℕ) (labels : List ℕ) :
    ℕ → List (PyPoint α) → List (PyPoint α) → List (PyPoint α)
  | _, done, [] => done
  | i, done, d :: rest =>
    let avg := meanLst (done ++ d :: rest)
    goLoop label_mapping labels (i + 1)
      (done ++ [classifyPoint d (labels.getD i 0) label_mapping avg]) rest

/-- The whole mutating loop of UHIAnalyzer.classify_heat_zones applied to the
list of point objects; the result is the final state of the objects that were
passed in (the Python function returns the same, mutated, list). The raw
K-means labels and the label_mapping dict are the clustering outcome,
passed here as parameters. -/
def classifyLoop (label_mapping : ℕ → ℕ) (labels : List ℕ)
    (data : List (PyPoint α)) : List (PyPoint α) :=
  goLoop label_mapping labels 0 [] data

/-- UHIAnalyzer.classify_heat_zones, lines 201-270: the insufficient-data
guard `if len(data) < n_clusters: raise ValueError(...)` followed by the
classification loop. The raised ValueError is modelled as Except.error with
the format string of line 206. -/
def classify_heat_zones (data : List (PyPoint α)) (n_clusters : ℕ)
    (labels : List ℕ) (label_mapping : ℕ → ℕ) : Except String (List (PyPoint α)) :=
  if data.length < n_clusters then
    Except.error ("Insufficient data points. Need at least " ++ toString n_clusters)
  else
    Except.ok (classifyLoop label_mapping labels data)

/-- The set of point indices carrying raw K-means label j. -/
def clusterSet {n k : ℕ} (labels : Fin n → Fin k) (j : Fin k) : Finset (Fin n) :=
  Finset.univ.filter (fun i => labels i = j)

/-- Mean of a per-point quantity over the cluster with raw label j. -/
def clusterMean {n k : ℕ} (v : Fin n → α) (labels : Fin n → Fin k) (j : Fin k) : α :=
  (∑ i in clusterSet labels j, v i) / ((clusterSet labels j).card : α)

/-- Zone assignment of UHIAnalyzer.classify_heat_zones lines 228-234:
center_indices = np.argsort(centers LST)[::-1] is a permutation ci of the k
raw labels listing them by descending mean LST, label_mapping sends
ci i to i, so the zone of a point is the inverse permutation applied to its
raw label. -/
def zoneAssign {n k : ℕ} (ci : Equiv.Perm (Fin k)) (labels : Fin n → Fin k)
    (i : Fin n) : Fin k :=
  ci.symm (labels i)

/-- Mean LST over the points assigned to zone z. -/
def zoneMean {n k : ℕ} (lst : Fin n → α) (labels : Fin n → Fin k)
    (ci : Equiv.Perm (Fin k)) (z : Fin k) : α :=
  clusterMean lst (zoneAssign ci labels) z

/-- Shape of a Flask JSON response of the get_uhi_data route: HTTP status
plus the success / error / message fields of the JSON body (none = absent). -/
structure ApiResponse where
  status : ℕ
  success : Option Bool
  error : Option String
  message : Option String
deriving DecidableEq

/-- The get_uhi_data route handler (src/backend/app.py lines 289-379),
modelled on its control flow: parameter validation returns 400; any
exception escaping fetch_satellite_data, sample_points or
classify_heat_zones is caught by the outer try/except which returns 500
with error field Failed to process UHI data and the exception text as
message; an empty sampled batch returns 404 No valid data points found;
otherwise 200 with success true. The outcomes of the three pipeline stages
are passed in as Except values. -/
def get_uhi_data (num_points : ℤ) (fetchRes : Except String Unit)
    (sampleRes : Except String (List (PyPoint ℚ)))
    (classifyRes : Except String (List (PyPoint ℚ))) : ApiResponse :=
  if num_points < 10 ∨ num_points > 500 then
    { status := 400, success := none,
      error := some "Points must be between 10 and 500", message := none }
  else
    match fetchRes with
    | Except.error e =>
      { status := 500, success := some false,
        error := some "Failed to process UHI data", message := some e }
    | Except.ok _ =>
      match sampleRes with
      | Except.error e =>
        { status := 500, success := some false,
          error := some "Failed to process UHI data", message := some e }
      | Except.ok data =>
        if data.isEmpty then
          { status := 404, success := none,
            error := some "No valid data points found",
            message := some "Try adjusting the date range or location" }
        else
          match classifyRes with
          | Except.error e =>
            { status := 500, success := some false,
              error := some "Failed to process UHI data", message := some e }
          | Except.ok _ =>
            { status := 200, success := some true, error := none, message := none }

end Model

section NDVIClaims

variable {α : Type*} [LinearOrderedField α]

/-- C3: for all inputs the NDVI calculation returns exactly
(nir - red) / (nir + red + 1e-10) (the function is a single total
expression, no branches), and for nonnegative nir and red the result
lies in the interval from -1 to 1. -/
theorem C3_ndvi_formula_and_range (nir red : α) (h1 : 0 ≤ nir) (h2 : 0 ≤ red) :
    NDVICalculator.calculate nir red = (nir - red) / (nir + red + 1e-10) ∧
    -1 ≤ NDVICalculator.calculate nir red ∧ NDVICalculator.calculate nir red ≤ 1 := by
  have heps : (0:α) < 1e-10 := by norm_num
  have hd : (0:α) < nir + red + 1e-10 := by linarith
  refine ⟨rfl, ?_, ?_⟩
  · unfold NDVICalculator.calculate
    rw [le_div_iff₀ hd]
    nlinarith
  · unfold NDVICalculator.calculate
    rw [div_le_one hd]
    linarith

/-- Witness for C3 at nir = 2, red = 1. -/
theorem C3_ndvi_formula_and_range_witness :
    (0:ℚ) ≤ 2 ∧ (0:ℚ) ≤ 1 ∧
    (NDVICalculator.calculate (2:ℚ) 1 = (2 - 1) / (2 + 1 + 1e-10) ∧
     -1 ≤ NDVICalculator.calculate (2:ℚ) 1 ∧ NDVICalculator.calculate (2:ℚ) 1 ≤ 1) :=
  ⟨by norm_num, by norm_num, C3_ndvi_formula_and_range 2 1 (by norm_num) (by norm_num)⟩

/-- The implemented NDVI has a symmetric denominator, so swapping the
arguments negates it exactly; helper for claim C4. -/
theorem ndvi_swap_neg (nir red : α) :
    NDVICalculator.calculate nir red = -NDVICalculator.calculate red nir := by
  unfold NDVICalculator.calculate
  have h : red + nir + (1e-10:α) = nir + red + 1e-10 := by ring
  rw [h, ← neg_div, neg_sub]

/-- C4 counterexample: the claim asserts the existence of inputs on which
calculate nir red differs from -calculate red nir; no such inputs exist,
because the denominator nir + red + 1e-10 is symmetric in the two
arguments. -/
theorem C4_counterexample :
    ¬ ∃ nir red : ℝ, NDVICalculator.calculate nir red ≠ -NDVICalculator.calculate red nir :=
  fun ⟨nir, red, h⟩ => h (ndvi_swap_neg nir red)

/-- C4 amended: the sign-swap relationship does hold for the implemented
formula: NDVI(nir, red) = -NDVI(red, nir) for all inputs. -/
theorem C4_ndvi_antisymmetric (nir red : α) :
    NDVICalculator.calculate nir red = -NDVICalculator.calculate red nir :=
  ndvi_swap_neg nir red

end NDVIClaims

section ClassifierErrorClaims

variable {α : Type*} [LinearOrderedField α]

/-- C7: the zone classifier returns the insufficient-data error exactly
when the batch has fewer points than the configured cluster count, and for
a batch with at least n_clusters points it succeeds (the error branch is
not taken, no silent degenerate result). -/
theorem C7_insufficient_data_guard (data : List (PyPoint α)) (k : ℕ)
    (labels : List ℕ) (lm : ℕ → ℕ) :
    (classify_heat_zones data k labels lm =
       Except.error ("Insufficient data points. Need at least " ++ toString k)
     ↔ data.length < k) ∧
    ((classify_heat_zones data k labels lm).isOk = true ↔ k ≤ data.length) := by
  unfold classify_heat_zones
  by_cases h : data.length < k
  · rw [if_pos h]
    refine ⟨by simp [h], ?_⟩
    simp [Except.isOk, Except.toBool]
    omega
  · rw [if_neg h]
    refine ⟨?_, ?_⟩
    · simp
      omega
    · simp [Except.isOk, Except.toBool]
      omega

end ClassifierErrorClaims

section EmissivityClaims

variable {α : Type*} [LinearOrderedField α]

/-- The piecewise fractional vegetation cover equals square of the ratio
clamped to the unit interval; this closed form exposes continuity. -/
theorem pv_eq_clamp (x : ℝ) :
    LSTCalculator.pv x = (min 1 (max 0 ((x - 0.2) / (0.5 - 0.2)))) ^ 2 := by
  unfold LSTCalculator.pv
  split_ifs with h1 h2
  · have hr : (x - 0.2) / (0.5 - 0.2) < 0 := by
      apply div_neg_of_neg_of_pos <;> [linarith; norm_num]
    rw [max_eq_left hr.le, min_eq_right zero_le_one]
    norm_num
  · have hr : (1:ℝ) ≤ (x - 0.2) / (0.5 - 0.2) := by
      rw [le_div_iff₀ (by norm_num : (0:ℝ) < 0.5 - 0.2)]
      linarith
    rw [max_eq_right (zero_le_one.trans hr), min_eq_left hr]
    norm_num
  · have h0 : (0:ℝ) ≤ (x - 0.2) / (0.5 - 0.2) := by
      apply div_nonneg <;> [linarith; norm_num]
    have hle : (x - 0.2) / (0.5 - 0.2) ≤ 1 := by
      rw [div_le_one (by norm_num : (0:ℝ) < 0.5 - 0.2)]
      linarith
    rw [max_eq_right h0, min_eq_right hle]

/-- The emissivity function is continuous everywhere on the reals. -/
theorem emissivity_continuous : Continuous (LSTCalculator.emissivity_correction : ℝ → ℝ) := by
  have hpv : (LSTCalculator.pv : ℝ → ℝ) =
      fun x => (min 1 (max 0 ((x - 0.2) / (0.5 - 0.2)))) ^ 2 :=
    funext pv_eq_clamp
  have hc : Continuous (LSTCalculator.pv : ℝ → ℝ) := by
    rw [hpv]
    exact (continuous_const.min (continuous_const.max
      ((continuous_id.sub continuous_const).div_const _))).pow 2
  unfold LSTCalculator.emissivity_correction
  exact (continuous_const.mul (continuous_const.sub hc)).add (continuous_const.mul hc)

/-- The fractional vegetation cover lies in the unit interval. -/
theorem pv_mem_unit (x : α) : 0 ≤ LSTCalculator.pv x ∧ LSTCalculator.pv x ≤ 1 := by
  unfold LSTCalculator.pv
  split_ifs with h1 h2
  · norm_num
  · norm_num
  · constructor
    · positivity
    · have h0 : (0:α) ≤ (x - 0.2) / (0.5 - 0.2) := by
        apply div_nonneg <;> [linarith; norm_num]
      have hle : (x - 0.2) / (0.5 - 0.2) ≤ 1 := by
        rw [div_le_one (by norm_num : (0:α) < 0.5 - 0.2)]
        linarith
      nlinarith

/-- C5: the emissivity function is continuous at the two NDVI thresholds
0.2 and 0.5 (the piecewise branches agree there), and for every NDVI in
the interval from -1 to 1 the returned emissivity lies between the soil
emissivity 0.973 and the vegetation emissivity 0.987. -/
theorem C5_emissivity_continuous_and_bounded :
    ContinuousAt (LSTCalculator.emissivity_correction : ℝ → ℝ) 0.2 ∧
    ContinuousAt (LSTCalculator.emissivity_correction : ℝ → ℝ) 0.5 ∧
    ∀ x : ℝ, -1 ≤ x → x ≤ 1 →
      0.973 ≤ LSTCalculator.emissivity_correction x ∧
      LSTCalculator.emissivity_correction x ≤ 0.987 := by
  refine ⟨emissivity_continuous.continuousAt, emissivity_continuous.continuousAt, ?_⟩
  intro x _ _
  obtain ⟨h0, h1⟩ := pv_mem_unit (α := ℝ) x
  unfold LSTCalculator.emissivity_correction
  constructor <;> nlinarith

/-- Witness for C5 at ndvi = 0. -/
theorem C5_emissivity_witness :
    (-1 ≤ (0:ℝ)) ∧ ((0:ℝ) ≤ 1) ∧
    (0.973 ≤ LSTCalculator.emissivity_correction (0:ℝ) ∧
     LSTCalculator.emissivity_correction (0:ℝ) ≤ 0.987) :=
  ⟨by norm_num, by norm_num,
    C5_emissivity_continuous_and_bounded.2.2 0 (by norm_num) (by norm_num)⟩

end EmissivityClaims

section BrightnessTemperatureClaims

/-- C6: for thermal inputs T with 0 < T (which forces K1 / T + 1 > 1 > 0),
the logarithm in the denominator of brightness_temperature is strictly
positive (so the value is a well-defined finite real, no division by zero),
and brightness_temperature is strictly increasing: T1 < T2 implies
brightness_temperature T1 < brightness_temperature T2. -/
theorem C6_brightness_temperature_monotone (T1 T2 : ℝ) (h1 : 0 < T1) (h2 : T1 < T2) :
    0 < Real.log (LSTCalculator.K1 / T1 + 1) ∧
    0 < Real.log (LSTCalculator.K1 / T2 + 1) ∧
    LSTCalculator.brightness_temperature T1 < LSTCalculator.brightness_temperature T2 := by
  have hK1 : (0:ℝ) < LSTCalculator.K1 := by norm_num [LSTCalculator.K1]
  have hK2 : (0:ℝ) < LSTCalculator.K2 := by norm_num [LSTCalculator.K2]
  have hT2 : 0 < T2 := h1.trans h2
  have hq : LSTCalculator.K1 / T2 < LSTCalculator.K1 / T1 :=
    div_lt_div_of_pos_left hK1 h1 h2
  have hp2 : 0 < LSTCalculator.K1 / T2 := div_pos hK1 hT2
  have hx2 : 1 < LSTCalculator.K1 / T2 + 1 := by linarith
  have hx1 : 1 < LSTCalculator.K1 / T1 + 1 := by linarith
  have hl2 : 0 < Real.log (LSTCalculator.K1 / T2 + 1) := Real.log_pos hx2
  have hl1 : 0 < Real.log (LSTCalculator.K1 / T1 + 1) := Real.log_pos hx1
  have hll : Real.log (LSTCalculator.K1 / T2 + 1) < Real.log (LSTCalculator.K1 / T1 + 1) :=
    Real.log_lt_log (by linarith) (by linarith)
  have hdiv : LSTCalculator.K2 / Real.log (LSTCalculator.K1 / T1 + 1) <
      LSTCalculator.K2 / Real.log (LSTCalculator.K1 / T2 + 1) :=
    div_lt_div_of_pos_left hK2 hl2 hll
  refine ⟨hl1, hl2, ?_⟩
  unfold LSTCalculator.brightness_temperature
  linarith

/-- Witness for C6 at T1 = 300, T2 = 301. -/
theorem C6_brightness_temperature_witness :
    (0 < (300:ℝ)) ∧ ((300:ℝ) < 301) ∧
    (0 < Real.log (LSTCalculator.K1 / 300 + 1) ∧
     0 < Real.log (LSTCalculator.K1 / 301 + 1) ∧
     LSTCalculator.brightness_temperature 300 < LSTCalculator.brightness_temperature 301) :=
  ⟨by norm_num, by norm_num,
    C6_brightness_temperature_monotone 300 301 (by norm_num) (by norm_num)⟩

end BrightnessTemperatureClaims

section SamplingClaims

variable {α : Type*} [LinearOrderedField α]

/-- Lower log bound: 1 - 1/x is below log x for positive x. -/
theorem one_sub_inv_le_log (x : ℝ) (hx : 0 < x) : 1 - x⁻¹ ≤ Real.log x := by
  have h := Real.log_le_sub_one_of_pos (inv_pos.mpr hx)
  rw [Real.log_inv] at h
  linarith

/-- Unfolding lemma for calculate_lst. -/
theorem calculate_lst_def (t n : ℝ) :
    LSTCalculator.calculate_lst t n =
      LSTCalculator.brightness_temperature t /
        (1 + 10.9e-6 * LSTCalculator.brightness_temperature t / 1.438e-2 *
          Real.log (LSTCalculator.emissivity_correction n)) := rfl

/-- At thermal value 300 and NDVI 0, the emissivity-corrected LST formula
produces a value above 100 degrees (the brightness-temperature step treats
the Kelvin temperature 300 as if it were radiance). -/
theorem calculate_lst_300_0_gt_100 : (100:ℝ) < LSTCalculator.calculate_lst 300 0 := by
  have hE : LSTCalculator.emissivity_correction (0:ℝ) = 0.973 := by
    norm_num [LSTCalculator.emissivity_correction, LSTCalculator.pv]
  have hB : LSTCalculator.brightness_temperature 300
      = 1321.0789 / Real.log (774.8853 / 300 + 1) - 273.15 := rfl
  have hL_up : Real.log (774.8853 / 300 + 1) ≤ 2.582951 := by
    have h := Real.log_le_sub_one_of_pos (show (0:ℝ) < 774.8853 / 300 + 1 by norm_num)
    nlinarith [h]
  have hL_lo : (0.72:ℝ) ≤ Real.log (774.8853 / 300 + 1) := by
    have h := one_sub_inv_le_log (774.8853 / 300 + 1) (by norm_num)
    have h2 : (0.72:ℝ) ≤ 1 - (774.8853 / 300 + 1)⁻¹ := by norm_num
    linarith
  have hM_up : Real.log (0.973:ℝ) ≤ -0.027 := by
    have h := Real.log_le_sub_one_of_pos (show (0:ℝ) < 0.973 by norm_num)
    linarith
  have hM_lo : (-0.0278:ℝ) ≤ Real.log (0.973:ℝ) := by
    have h := one_sub_inv_le_log 0.973 (by norm_num)
    have h2 : (-0.0278:ℝ) ≤ 1 - (0.973:ℝ)⁻¹ := by norm_num
    linarith
  rw [calculate_lst_def, hB, hE]
  set L := Real.log (774.8853 / 300 + 1)
  set M := Real.log (0.973:ℝ)
  have hL_pos : (0:ℝ) < L := by linarith
  have hQ_lo : (510.15:ℝ) ≤ 1321.0789 / L := by
    rw [le_div_iff₀ hL_pos]
    linarith
  have hQ_hi : 1321.0789 / L ≤ 1835 := by
    rw [div_le_iff₀ hL_pos]
    linarith
  set B := 1321.0789 / L - 273.15 with hBdef
  have hB_lo : (237:ℝ) ≤ B := by rw [hBdef]; linarith
  have hB_hi : B ≤ 1562 := by rw [hBdef]; linarith
  have hcoef_lo : (0:ℝ) ≤ 10.9e-6 * B / 1.438e-2 := by
    apply div_nonneg _ (by norm_num)
    nlinarith
  have hcoef_hi : 10.9e-6 * B / 1.438e-2 ≤ 1.19 := by
    rw [div_le_iff₀ (show (0:ℝ) < 1.438e-2 by norm_num)]
    nlinarith
  have hterm_lo : (-0.034:ℝ) ≤ 10.9e-6 * B / 1.438e-2 * M := by
    nlinarith [mul_nonneg hcoef_lo (show (0:ℝ) ≤ M + 0.0278 by linarith)]
  have hterm_hi : 10.9e-6 * B / 1.438e-2 * M ≤ 0 := by
    nlinarith [mul_nonneg hcoef_lo (show (0:ℝ) ≤ -M by linarith)]
  have hD_pos : (0:ℝ) < 1 + 10.9e-6 * B / 1.438e-2 * M := by linarith
  rw [lt_div_iff₀ hD_pos]
  linarith

/-- C2 counterexample: the pipeline emits, for a feature with bands
nir = red = 0.5 and thermal = 300, a point whose lst is 300 - 273.15,
while calculate_lst applied to the same thermal and NDVI values yields
something above 100 degrees; the claim that every sampled lst equals
calculate_lst(thermal, ndvi) is therefore false. -/
theorem C2_counterexample :
    (samplePointsLocal (α := ℝ) [⟨85.8, 20.3, 0.5, 0.5, 300⟩]).map PyPoint.lst
      = [300 - 273.15] ∧
    LSTCalculator.calculate_lst 300 (sampledNDVI (0.5:ℝ) 0.5) ≠ 300 - 273.15 := by
  constructor
  · norm_num [samplePointsLocal, sampledLST, sampledNDVI,
      List.filterMap_cons, List.filterMap_nil]
  · have h0 : sampledNDVI (0.5:ℝ) 0.5 = 0 := by norm_num [sampledNDVI]
    rw [h0]
    intro h
    have hgt := calculate_lst_300_0_gt_100
    rw [h] at hgt
    norm_num at hgt

/-- C2 amended: every point emitted by the sampling stage carries
lst = thermal - 273.15 (the thermal band scaled to Celsius directly) and
ndvi = (nir - red) / (nir + red); the brightness-temperature/emissivity
formula calculate_lst is not applied in the sampling path. -/
theorem C2_sampled_lst_direct (feats : List (Feature α)) :
    ∀ p ∈ samplePointsLocal feats, ∃ f ∈ feats,
      p.lst = f.thermal - 273.15 ∧ p.ndvi = (f.nir - f.red) / (f.nir + f.red) := by
  intro p hp
  simp only [samplePointsLocal, List.mem_filterMap] at hp
  obtain ⟨f, hf, hpf⟩ := hp
  refine ⟨f, hf, ?_⟩
  split_ifs at hpf with h
  rw [Option.some_inj] at hpf
  subst hpf
  exact ⟨rfl, rfl⟩

/-- Evaluation of the sampling stage on a concrete single-feature batch. -/
theorem samplePointsLocal_eval_example :
    samplePointsLocal (α := ℚ) [⟨85.8, 20.3, 0.5, 0.5, 300⟩]
      = [{ lon := 85.8, lat := 20.3, lst := 300 - 273.15,
           ndvi := (0.5 - 0.5) / (0.5 + 0.5) }] := by
  norm_num [samplePointsLocal, sampledLST, sampledNDVI,
    List.filterMap_cons, List.filterMap_nil]

/-- Witness for C2 amended at a concrete single-feature batch. -/
theorem C2_sampled_lst_direct_witness :
    ({ lon := (85.8:ℚ), lat := 20.3, lst := 300 - 273.15,
       ndvi := (0.5 - 0.5) / (0.5 + 0.5) } : PyPoint ℚ)
      ∈ samplePointsLocal [⟨85.8, 20.3, 0.5, 0.5, 300⟩] ∧
    ∃ f ∈ [(⟨85.8, 20.3, 0.5, 0.5, 300⟩ : Feature ℚ)],
      ({ lon := (85.8:ℚ), lat := 20.3, lst := 300 - 273.15,
         ndvi := (0.5 - 0.5) / (0.5 + 0.5) } : PyPoint ℚ).lst = f.thermal - 273.15 ∧
      ({ lon := (85.8:ℚ), lat := 20.3, lst := 300 - 273.15,
         ndvi := (0.5 - 0.5) / (0.5 + 0.5) } : PyPoint ℚ).ndvi
        = (f.nir - f.red) / (f.nir + f.red) :=
  ⟨by simp [samplePointsLocal_eval_example],
   C2_sampled_lst_direct _ _ (by simp [samplePointsLocal_eval_example])⟩

end SamplingClaims

section LoopClaims

variable {α : Type*} [LinearOrderedField α]

/-- The loop body does not touch the lst key. -/
theorem classifyPoint_lst (d : PyPoint α) (l : ℕ) (lm : ℕ → ℕ) (a : α) :
    (classifyPoint d l lm a).lst = d.lst := rfl

/-- The loop body writes uhi_intensity = lst - avg. -/
theorem classifyPoint_uhi (d : PyPoint α) (l : ℕ) (lm : ℕ → ℕ) (a : α) :
    (classifyPoint d l lm a).uhi_intensity = some (d.lst - a) := rfl

/-- The four sample-stage keys of a point object. -/
def sampleFields (p : PyPoint α) : α × α × α × α :=
  (p.lon, p.lat, p.lst, p.ndvi)

/-- The loop body preserves all four sample-stage keys. -/
theorem classifyPoint_sampleFields (d : PyPoint α) (l : ℕ) (lm : ℕ → ℕ) (a : α) :
    sampleFields (classifyPoint d l lm a) = sampleFields d := rfl

/-- One loop step leaves the multiset of lst values of the state unchanged. -/
theorem map_lst_loop_step (done rest : List (PyPoint α)) (d : PyPoint α)
    (l : ℕ) (lm : ℕ → ℕ) (a : α) :
    ((done ++ [classifyPoint d l lm a]) ++ rest).map PyPoint.lst
      = (done ++ d :: rest).map PyPoint.lst := by
  simp [List.append_assoc, List.map_append, classifyPoint_lst]

/-- One loop step leaves the batch mean of the state unchanged: the mean
recomputed from the mutated list equals the mean of the list before the
mutation, because the lst key is never written. -/
theorem meanLst_loop_step (done rest : List (PyPoint α)) (d : PyPoint α)
    (l : ℕ) (lm : ℕ → ℕ) (a : α) :
    meanLst ((done ++ [classifyPoint d l lm a]) ++ rest) = meanLst (done ++ d :: rest) := by
  have hlen : ((done ++ [classifyPoint d l lm a]) ++ rest).length
      = (done ++ d :: rest).length := by simp
  unfold meanLst
  rw [map_lst_loop_step, hlen]

/-- Loop invariant for the uhi_intensity key: if every already-processed
point has uhi_intensity = lst - m and the current state has batch mean m,
then every point of the final state has uhi_intensity = lst - m. -/
theorem goLoop_uhi (lm : ℕ → ℕ) (labels : List ℕ) (m : α) (rest : List (PyPoint α)) :
    ∀ (done : List (PyPoint α)) (i : ℕ),
      (∀ p ∈ done, p.uhi_intensity = some (p.lst - m)) →
      meanLst (done ++ rest) = m →
      ∀ p ∈ goLoop lm labels i done rest, p.uhi_intensity = some (p.lst - m) := by
  induction rest with
  | nil =>
    intro done i hdone _ p hp
    rw [goLoop] at hp
    exact hdone p hp
  | cons d rest ih =>
    intro done i hdone hmean p hp
    simp only [goLoop] at hp
    refine ih _ (i + 1) ?_ ?_ p hp
    · intro q hq
      rcases List.mem_append.mp hq with h | h
      · exact hdone q h
      · have hq' := List.mem_singleton.mp h
        subst hq'
        rw [classifyPoint_uhi, classifyPoint_lst, hmean]
    · rw [meanLst_loop_step]
      exact hmean

/-- C9: every point of a classified batch has
uhi_intensity = its own lst minus the mean lst of the batch being
classified (the mean the loop recomputes at each iteration provably equals
the mean of the input batch, since the loop never writes the lst key, so
the value is the once-per-batch mean and no external baseline is used). -/
theorem C9_uhi_intensity_batch_mean (lm : ℕ → ℕ) (labels : List ℕ)
    (data : List (PyPoint α)) :
    ∀ p ∈ classifyLoop lm labels data,
      p.uhi_intensity = some (p.lst - meanLst data) := by
  intro p hp
  exact goLoop_uhi lm labels (meanLst data) data [] 0 (by simp) rfl p hp

/-- First input point of the concrete three-point example batch. -/
def wPt1 : PyPoint ℚ := { lon := 0, lat := 0, lst := 30, ndvi := 0.1 }

/-- Second input point of the concrete three-point example batch. -/
def wPt2 : PyPoint ℚ := { lon := 0, lat := 0, lst := 20, ndvi := 0.3 }

/-- Third input point of the concrete three-point example batch. -/
def wPt3 : PyPoint ℚ := { lon := 0, lat := 0, lst := 10, ndvi := 0.6 }

/-- State of the first point object after classification. -/
def cPt1 : PyPoint ℚ :=
  { lon := 0, lat := 0, lst := 30, ndvi := 0.1, zone := some 0, cluster_id := some 0,
    uhi_intensity := some 10, severity := some "Critical",
    recommendation := some "Urgent: Implement green infrastructure - tree plantation, green roofs, vertical gardens, cool pavements",
    priority := some 1, color := some "#ef4444", vegetation := some "Barren/Sparse" }

/-- State of the second point object after classification. -/
def cPt2 : PyPoint ℚ :=
  { lon := 0, lat := 0, lst := 20, ndvi := 0.3, zone := some 1, cluster_id := some 1,
    uhi_intensity := some 0, severity := some "Moderate",
    recommendation := some "Medium Priority: Develop urban parks, water bodies, increase albedo with reflective surfaces",
    priority := some 2, color := some "#f97316", vegetation := some "Moderate Vegetation" }

/-- State of the third point object after classification. -/
def cPt3 : PyPoint ℚ :=
  { lon := 0, lat := 0, lst := 10, ndvi := 0.6, zone := some 2, cluster_id := some 2,
    uhi_intensity := some (-10), severity := some "Low",
    recommendation := some "Maintenance: Preserve existing vegetation, monitor for changes",
    priority := some 3, color := some "#22c55e", vegetation := some "Dense Vegetation" }

/-- Evaluation of the classification loop on the concrete batch with the
identity label mapping and labels 0, 1, 2. -/
theorem classifyLoop_eval_example :
    classifyLoop (fun z => z) [0, 1, 2] [wPt1, wPt2, wPt3] = [cPt1, cPt2, cPt3] := by
  norm_num [classifyLoop, goLoop, classifyPoint, meanLst,
    wPt1, wPt2, wPt3, cPt1, cPt2, cPt3]

/-- Witness for C9 on the concrete batch. -/
theorem C9_uhi_intensity_witness :
    cPt1 ∈ classifyLoop (fun z => z) [0, 1, 2] [wPt1, wPt2, wPt3] ∧
    cPt1.uhi_intensity = some (cPt1.lst - meanLst [wPt1, wPt2, wPt3]) :=
  ⟨by rw [classifyLoop_eval_example]; simp,
   C9_uhi_intensity_batch_mean _ _ _ cPt1
     (by rw [classifyLoop_eval_example]; simp)⟩

/-- C10 counterexample: the classification loop applied to the concrete
batch does not leave the point objects as they were handed in: the final
state of the objects differs from the input state (the zone key, among
others, has been written into them), so the sample objects are mutated
rather than copied. -/
theorem C10_counterexample :
    classifyLoop (fun z => z) [0, 1, 2] [wPt1, wPt2, wPt3] ≠ [wPt1, wPt2, wPt3] := by
  rw [classifyLoop_eval_example]
  intro h
  simp [cPt1, cPt2, cPt3, wPt1, wPt2, wPt3] at h

/-- The mutating loop preserves the sample-stage keys of every object. -/
theorem goLoop_map_sampleFields (lm : ℕ → ℕ) (labels : List ℕ)
    (rest : List (PyPoint α)) :
    ∀ (done : List (PyPoint α)) (i : ℕ),
      (goLoop lm labels i done rest).map sampleFields
        = done.map sampleFields ++ rest.map sampleFields := by
  induction rest with
  | nil =>
    intro done i
    simp [goLoop]
  | cons d rest ih =>
    intro done i
    simp only [goLoop]
    rw [ih]
    simp [List.map_append, classifyPoint_sampleFields, List.append_assoc]

/-- C10 amended: the classifier writes the classification keys into the
sample objects in place and hands back the same objects (the output is the
final state of the input list); the mutation adds keys but preserves the
sample-stage keys lon, lat, lst, ndvi of every object, and the batch
length. -/
theorem C10_in_place_preserves_sample_fields (lm : ℕ → ℕ) (labels : List ℕ)
    (data : List (PyPoint α)) :
    (classifyLoop lm labels data).map sampleFields = data.map sampleFields ∧
    (classifyLoop lm labels data).length = data.length := by
  have h := goLoop_map_sampleFields lm labels data [] 0
  simp only [List.map_nil, List.nil_append] at h
  refine ⟨h, ?_⟩
  have h2 := congrArg List.length h
  simpa using h2

end LoopClaims

section ApiClaims

/-- C8 counterexample: when the provider returns zero usable scenes the
route answers with status 500 and error field Failed to process UHI data -
exactly the same status and error field as a generic internal computation
failure (here: the insufficient-data ValueError escaping the classifier) -
so the zero-scenes condition is not surfaced as a distinct no-data
condition distinguishable from a generic failure. -/
theorem C8_counterexample :
    (get_uhi_data 100 (Except.error "No Landsat data available for this period")
        (Except.ok [wPt1]) (Except.ok [wPt1])).status
      = (get_uhi_data 100 (Except.ok ()) (Except.ok [wPt1])
          (Except.error "Insufficient data points. Need at least 3")).status ∧
    (get_uhi_data 100 (Except.error "No Landsat data available for this period")
        (Except.ok [wPt1]) (Except.ok [wPt1])).error
      = (get_uhi_data 100 (Except.ok ()) (Except.ok [wPt1])
          (Except.error "Insufficient data points. Need at least 3")).error ∧
    (get_uhi_data 100 (Except.error "No Landsat data available for this period")
        (Except.ok [wPt1]) (Except.ok [wPt1])).status = 500 := by
  refine ⟨rfl, rfl, rfl⟩

/-- C8 amended: the all-points-filtered case is a distinct no-data
condition: the route answers 404 with error field No valid data points
found, distinguishable from the 400 parameter error and from 500 internal
failures; the zero-scenes case, however, propagates as the generic 500
Failed to process UHI data response, carrying the upstream reason only in
the free-text message field. -/
theorem C8_no_data_channels (e : String)
    (s c : Except String (List (PyPoint ℚ))) :
    get_uhi_data 100 (Except.error e) s c
      = { status := 500, success := some false,
          error := some "Failed to process UHI data", message := some e } ∧
    (get_uhi_data 100 (Except.ok ()) (Except.ok []) c).status = 404 ∧
    (get_uhi_data 100 (Except.ok ()) (Except.ok []) c).error
      = some "No valid data points found" ∧
    (get_uhi_data 5 (Except.error e) s c).status = 400 := by
  refine ⟨rfl, rfl, rfl, rfl⟩

end ApiClaims

section ZoneRankingClaims

variable {α : Type*} [LinearOrderedField α]

/-- Relabelling the points by the zone bijection turns the zone-z set into
the raw cluster ci z. -/
theorem clusterSet_zoneAssign {n k : ℕ} (ci : Equiv.Perm (Fin k))
    (labels : Fin n → Fin k) (z : Fin k) :
    clusterSet (zoneAssign ci labels) z = clusterSet labels (ci z) := by
  unfold clusterSet zoneAssign
  ext i
  simp [Equiv.symm_apply_eq]

/-- The mean over a nonempty cluster commutes with the affine inverse
transform of the standard scaler: if lst = sigma * scaled + mu pointwise,
the cluster mean of lst is sigma times the cluster mean of scaled plus mu. -/
theorem clusterMean_affine {n k : ℕ} (s m : α) (scaled lst : Fin n → α)
    (labels : Fin n → Fin k) (j : Fin k)
    (hne : (clusterSet labels j).Nonempty)
    (hinv : ∀ i, lst i = s * scaled i + m) :
    clusterMean lst labels j = s * clusterMean scaled labels j + m := by
  have hcard : ((clusterSet labels j).card : α) ≠ 0 :=
    Nat.cast_ne_zero.mpr (Nat.pos_iff_ne_zero.mp (Finset.card_pos.mpr hne))
  unfold clusterMean
  rw [Finset.sum_congr rfl (fun i _ => hinv i), Finset.sum_add_distrib,
    ← Finset.mul_sum, Finset.sum_const, nsmul_eq_mul, add_div, mul_div_assoc,
    mul_div_cancel_left₀ _ hcard]

/-- Zone means are cluster means read through the ranking permutation. -/
theorem zoneMean_eq_clusterMean {n k : ℕ} (lst : Fin n → α)
    (labels : Fin n → Fin k) (ci : Equiv.Perm (Fin k)) (z : Fin k) :
    zoneMean lst labels ci z = clusterMean lst labels (ci z) := by
  unfold zoneMean clusterMean
  rw [clusterSet_zoneAssign]

/-- C1: under the K-means contract (every cluster nonempty, each returned
center is the mean of its cluster in scaled space), the inverse scaler
transform (lst = s * scaled + m pointwise, centers mapped back by the same
affine map), and the argsort contract (ci enumerates the raw labels by
descending center LST), the raw-label-to-zone map is the bijection
ci.symm of the k cluster labels (zone 0 = highest mean LST), and the
per-zone mean LST is non-increasing in the zone index; in particular
mean(LST given zone 0) is at least mean(LST given zone 1) is at least
mean(LST given zone 2) when k = 3. -/
theorem C1_zone_ranking {n k : ℕ} (lst scaled : Fin n → α)
    (labels : Fin n → Fin k) (ctr centerLST : Fin k → α) (s m : α)
    (ci : Equiv.Perm (Fin k))
    (hne : ∀ j, (clusterSet labels j).Nonempty)
    (hinv : ∀ i, lst i = s * scaled i + m)
    (hctr : ∀ j, ctr j = clusterMean scaled labels j)
    (hcenter : ∀ j, centerLST j = s * ctr j + m)
    (hsort : ∀ a b : Fin k, a ≤ b → centerLST (ci b) ≤ centerLST (ci a)) :
    Function.Bijective (fun l : Fin k => ci.symm l) ∧
    (∀ i, zoneAssign ci labels i = ci.symm (labels i)) ∧
    ∀ z₁ z₂ : Fin k, z₁ ≤ z₂ →
      zoneMean lst labels ci z₂ ≤ zoneMean lst labels ci z₁ := by
  have hkey : ∀ z : Fin k, zoneMean lst labels ci z = centerLST (ci z) := by
    intro z
    rw [zoneMean_eq_clusterMean,
      clusterMean_affine s m scaled lst labels (ci z) (hne (ci z)) hinv,
      ← hctr, ← hcenter]
  refine ⟨ci.symm.bijective, fun _ => rfl, ?_⟩
  intro z₁ z₂ h
  rw [hkey z₁, hkey z₂]
  exact hsort z₁ z₂ h

/-- When every point is its own cluster, the cluster mean is the value. -/
theorem clusterMean_id {k : ℕ} (v : Fin k → α) (j : Fin k) :
    clusterMean v (fun i => i) j = v j := by
  have hset : clusterSet (fun i : Fin k => i) j = {j} := by
    ext i
    simp [clusterSet]
  unfold clusterMean
  rw [hset, Finset.sum_singleton, Finset.card_singleton]
  simp

/-- Concrete lst values 30, 20, 10 for the C1 witness batch. -/
def wLstF : Fin 3 → ℚ
  | 0 => 30
  | 1 => 20
  | 2 => 10

/-- Concrete standardized values 1, 0, -1 for the C1 witness batch
(scaler mean 20, scale 10). -/
def wScaledF : Fin 3 → ℚ
  | 0 => 1
  | 1 => 0
  | 2 => -1

/-- Witness for C1 on a concrete three-point, three-cluster batch over
the rationals: lst values 30, 20, 10, each point its own cluster, centers
already in descending order of mean LST. -/
theorem C1_zone_ranking_witness :
    (∀ j : Fin 3, (clusterSet (fun i : Fin 3 => i) j).Nonempty) ∧
    (Function.Bijective (fun l : Fin 3 => (Equiv.refl (Fin 3)).symm l) ∧
     (∀ i : Fin 3, zoneAssign (Equiv.refl (Fin 3)) (fun i : Fin 3 => i) i
        = (Equiv.refl (Fin 3)).symm i) ∧
     ∀ z₁ z₂ : Fin 3, z₁ ≤ z₂ →
       zoneMean wLstF (fun i : Fin 3 => i) (Equiv.refl (Fin 3)) z₂
         ≤ zoneMean wLstF (fun i : Fin 3 => i) (Equiv.refl (Fin 3)) z₁) :=
  ⟨by decide,
   C1_zone_ranking wLstF wScaledF (fun i : Fin 3 => i) wScaledF wLstF 10 20
     (Equiv.refl (Fin 3))
     (by decide)
     (by intro i; fin_cases i <;> norm_num [wLstF, wScaledF])
     (by intro j; rw [clusterMean_id])
     (by intro j; fin_cases j <;> norm_num [wLstF, wScaledF])
     (by
       intro a b h
       simpa using (by decide : ∀ a b : Fin 3, a ≤ b → wLstF b ≤ wLstF a) a b h)⟩

end ZoneRankingClaims
